import Mathlib

/-!
Shallow embedding of the ToDoApp task store (src/main.py, a FastAPI service over
a MySQL table `tasks`) and of the client-side fetch/filter logic (src/frontend.py).

The table is modelled as a list of rows kept in insertion order, which is the
order an unordered SELECT (no ORDER BY appears anywhere in the source) scans them
back, together with the AUTO_INCREMENT counter.  MySQL string comparison with `=`
is modelled as string equality (the collation is datastore configuration, not
repository code; none of the results below depends on case folding).  Statements
executed before COMMIT are uncommitted, so a rollback restores the table as it was
when the request began; storage-level failures are modelled by an injected failure
point counting the database calls of a handler.
-/

namespace ToDoApp

/-- Error taxonomy of the API: handler-raised HTTPExceptions and pydantic
validation failures.  validation covers 400 and 422 bad-input answers, duplicate
the 400 "Task name already exists" answer, notFound the 404 answers, storage the
500 answers produced from mysql.connector errors. -/
inductive ApiError where
  | validation (msg : String)
  | notFound (msg : String)
  | duplicate (msg : String)
  | storage (msg : String)
deriving Repr, DecidableEq

/-- One row of the tasks table: columns id (AUTO_INCREMENT primary key),
task_name, status. -/
structure TaskRow where
  id : Nat
  task_name : String
  status : Bool
deriving Repr, DecidableEq

/-- Response model TaskResponse(id, name, status) of src/main.py. -/
structure TaskResponse where
  id : Nat
  name : String
  status : Bool
deriving Repr, DecidableEq

/-- The persistent state: the tasks table in insertion order plus the
AUTO_INCREMENT counter that cursor.lastrowid reports after an INSERT. -/
structure Db where
  table : List TaskRow
  nextId : Nat
deriving Repr, DecidableEq

/-- Pydantic request model Task of src/main.py: name is a required field with
min_length 1 and max_length 100; status is a bool defaulting to False. -/
structure Task where
  name : String
  status : Bool
deriving Repr, DecidableEq

/-- Pydantic validation of a JSON request body with optional fields name and
status against the Task model: a body without name is rejected (name is declared
with Field(..., min_length=1, max_length=100), not Optional), a name outside the
length bounds is rejected, and a missing status defaults to false. -/
def parseTask (jsonName : Option String) (jsonStatus : Option Bool) :
    Except ApiError Task :=
  match jsonName with
  | none => .error (.validation "Field required: name")
  | some n =>
      if 1 ≤ n.length ∧ n.length ≤ 100 then
        .ok { name := n, status := jsonStatus.getD false }
      else
        .error (.validation "name must have between 1 and 100 characters")

/-- Turn a fetched row into a response, as the handlers do with
TaskResponse(id=row[0], name=row[1], status=row[2]). -/
def rowToResponse (r : TaskRow) : TaskResponse :=
  ⟨r.id, r.task_name, r.status⟩

/-- Handler create_task (POST /addtask) with an injected storage failure point:
failAt = some k makes the k-th database call (0 = duplicate-check SELECT,
1 = INSERT, 2 = COMMIT) raise a mysql.connector error, which the source answers
with connection.rollback() and a 500; nothing was committed yet at any of those
points, so the table is restored unchanged. -/
def create_taskF (task : Task) (failAt : Option Nat) (st : Db) :
    Except ApiError TaskResponse × Db :=
  if failAt = some 0 then
    (.error (.storage "mid-operation failure"), st)
  else
    match st.table.find? (fun r => r.task_name == task.name) with
    | some _ => (.error (.duplicate "Task name already exists"), st)
    | none =>
        if failAt = some 1 ∨ failAt = some 2 then
          (.error (.storage "mid-operation failure"), st)
        else
          (.ok ⟨st.nextId, task.name, task.status⟩,
           ⟨st.table ++ [⟨st.nextId, task.name, task.status⟩], st.nextId + 1⟩)

/-- Endpoint POST /addtask: pydantic-validate the body, then run the handler with
no storage failure. -/
def create_task (jsonName : Option String) (jsonStatus : Option Bool) (st : Db) :
    Except ApiError TaskResponse × Db :=
  match parseTask jsonName jsonStatus with
  | .error e => (.error e, st)
  | .ok t => create_taskF t none st

/-- Handler get_all_tasks (GET /tasks, registered first, src/main.py lines
94-139): exact-equality WHERE filters on task_name and status, no ORDER BY, so
rows come back in table (insertion) order. -/
def get_all_tasks (name : Option String) (status : Option Bool) (st : Db) :
    List TaskResponse :=
  ((match name, status with
    | some n, some s => st.table.filter (fun r => r.task_name == n && r.status == s)
    | some n, none => st.table.filter (fun r => r.task_name == n)
    | none, some s => st.table.filter (fun r => r.status == s)
    | none, none => st.table : List TaskRow)).map rowToResponse

/-- Handler get_task (GET /tasks/{task_id}): fetch one row by id, 404 when
absent. -/
def get_task (task_id : Nat) (st : Db) : Except ApiError TaskResponse :=
  match st.table.find? (fun r => r.id == task_id) with
  | none => .error (.notFound "Specific Task ID not found")
  | some r => .ok (rowToResponse r)

/-- Handler get_tasks (the SECOND registration of GET /tasks, src/main.py lines
170-203): exact-equality search on task_name via the search query parameter. -/
def get_tasks (search : Option String) (st : Db) : List TaskResponse :=
  match search with
  | some q => (st.table.filter (fun r => r.task_name == q)).map rowToResponse
  | none => st.table.map rowToResponse

/-- Construction of the response model TaskResponse(id=task_id, name=task.name,
status=task.status): pydantic raises a validation error if a required field is
None, so the partial branches of update_task could not build their response even
if they were reachable. -/
def mkTaskResponse (id : Nat) (name : Option String) (status : Option Bool) :
    Except ApiError TaskResponse :=
  match name, status with
  | some n, some s => .ok ⟨id, n, s⟩
  | _, _ => .error (.validation "TaskResponse: field required")

/-- Handler update_task (PATCH /tasks/{task_id}) over the parsed body fields,
transcribing the is-not-None branching of the source, with injected storage
failure (0 = existence SELECT, 1 = UPDATE, 2 = COMMIT). -/
def update_taskF (task_id : Nat) (name : Option String) (status : Option Bool)
    (failAt : Option Nat) (st : Db) : Except ApiError TaskResponse × Db :=
  if failAt = some 0 then
    (.error (.storage "mid-operation failure"), st)
  else
    match st.table.find? (fun r => r.id == task_id) with
    | none => (.error (.notFound "Specific Task ID not found"), st)
    | some _ =>
        match name, status with
        | some n, some s =>
            if failAt = some 1 ∨ failAt = some 2 then
              (.error (.storage "mid-operation failure"), st)
            else
              (mkTaskResponse task_id (some n) (some s),
               ⟨st.table.map (fun r => if r.id = task_id then ⟨r.id, n, s⟩ else r),
                st.nextId⟩)
        | some n, none =>
            if failAt = some 1 ∨ failAt = some 2 then
              (.error (.storage "mid-operation failure"), st)
            else
              (mkTaskResponse task_id (some n) none,
               ⟨st.table.map (fun r => if r.id = task_id then ⟨r.id, n, r.status⟩ else r),
                st.nextId⟩)
        | none, some s =>
            if failAt = some 1 ∨ failAt = some 2 then
              (.error (.storage "mid-operation failure"), st)
            else
              (mkTaskResponse task_id none (some s),
               ⟨st.table.map (fun r => if r.id = task_id then ⟨r.id, r.task_name, s⟩ else r),
                st.nextId⟩)
        | none, none =>
            (.error (.validation "No task name or status provided. Must provide name or status to update task"), st)

/-- Endpoint PATCH /tasks/{task_id}: pydantic-validate the body against Task
(name required, status defaulted to false), then run the handler; after
validation both fields are present, so only the both-supplied branch of
update_taskF is reachable. -/
def update_task (task_id : Nat) (jsonName : Option String)
    (jsonStatus : Option Bool) (st : Db) : Except ApiError TaskResponse × Db :=
  match parseTask jsonName jsonStatus with
  | .error e => (.error e, st)
  | .ok t => update_taskF task_id (some t.name) (some t.status) none st

/-- Handler delete_task (DELETE /tasks/{task_id}) with injected storage failure
(0 = existence SELECT, 1 = row SELECT, 2 = DELETE, 3 = COMMIT).  The source
issues two SELECTs for the same id on the same snapshot; the second cannot miss
once the first hit, but its guard is transcribed (its miss would leave the name
variable unbound and raise, a 500 with the table unchanged, the DELETE of the
absent id having removed nothing). -/
def delete_taskF (task_id : Nat) (failAt : Option Nat) (st : Db) :
    Except ApiError TaskResponse × Db :=
  if failAt = some 0 then
    (.error (.storage "mid-operation failure"), st)
  else
    match st.table.find? (fun r => r.id == task_id) with
    | none => (.error (.notFound "Specific Task ID not found"), st)
    | some _ =>
        if failAt = some 1 then
          (.error (.storage "mid-operation failure"), st)
        else
          match st.table.find? (fun r => r.id == task_id) with
          | none => (.error (.storage "NameError"), st)
          | some row =>
              if failAt = some 2 ∨ failAt = some 3 then
                (.error (.storage "mid-operation failure"), st)
              else
                (.ok ⟨task_id, row.task_name, row.status⟩,
                 ⟨st.table.filter (fun r => !(r.id == task_id)), st.nextId⟩)

/-- Endpoint DELETE /tasks/{task_id} with no storage failure. -/
def delete_task (task_id : Nat) (st : Db) : Except ApiError TaskResponse × Db :=
  delete_taskF task_id none st

/-- The two handlers registered for GET /tasks, in registration order:
get_all_tasks (line 94) before get_tasks (line 170). -/
inductive GetTasksHandler where
  | allTasks
  | searchTasks
deriving Repr, DecidableEq

/-- Registration order of the GET /tasks routes in src/main.py. -/
def getTasksRegistration : List GetTasksHandler :=
  [GetTasksHandler.allTasks, GetTasksHandler.searchTasks]

/-- Query parameters a GET /tasks request may carry: name and status are read by
get_all_tasks, search by get_tasks. -/
structure GetTasksQuery where
  name : Option String
  status : Option Bool
  search : Option String
deriving Repr, DecidableEq

/-- Run one registered GET /tasks handler on a request. -/
def runGetTasksHandler : GetTasksHandler → GetTasksQuery → Db → List TaskResponse
  | GetTasksHandler.allTasks, q, st => get_all_tasks q.name q.status st
  | GetTasksHandler.searchTasks, q, st => get_tasks q.search st

/-- Modelled from FastAPI routing semantics: a request is dispatched to the FIRST
registered route whose method and path match; both routes above match GET /tasks
for every query string, so the head of the registration list handles every such
request. -/
def dispatch_get_tasks (q : GetTasksQuery) (st : Db) : List TaskResponse :=
  match getTasksRegistration with
  | [] => []
  | h :: _ => runGetTasksHandler h q st

/-- Client-side query construction of get_tasks in src/frontend.py: a nonempty
(truthy) name filter is sent as the literal string built by wrapping the filter
in percent signs, an intended SQL LIKE pattern; the status filter is passed
through when present. -/
def frontend_params (name_filter : String) (status_filter : Option Bool) :
    GetTasksQuery :=
  { name := if name_filter ≠ "" then some ("%" ++ name_filter ++ "%") else none,
    status := status_filter,
    search := none }

/-- Client fetch: issue GET /tasks with the constructed query. -/
def frontend_get_tasks (name_filter : String) (status_filter : Option Bool)
    (st : Db) : List TaskResponse :=
  dispatch_get_tasks (frontend_params name_filter status_filter) st

/-- Status filter computed by refresh_tasks in src/frontend.py from the two
toggles: show-completed alone requests status true, show-pending alone requests
status false, any other combination requests no status filter. -/
def refreshStatusFilter (show_completed show_pending : Bool) : Option Bool :=
  if show_completed && !show_pending then some true
  else if show_pending && !show_completed then some false
  else none

/-- refresh_tasks: re-fetch the list with the current name filter and the
toggle-derived status filter. -/
def refresh_tasks (filter_name : String) (show_completed show_pending : Bool)
    (st : Db) : List TaskResponse :=
  frontend_get_tasks filter_name (refreshStatusFilter show_completed show_pending) st

/-- Helper: a Create whose name is valid and carried by no stored row succeeds,
answers with the counter id and appends exactly that one row. -/
theorem create_task_fresh (name : String) (jsonStatus : Option Bool) (st : Db)
    (h1 : 1 ≤ name.length) (h2 : name.length ≤ 100)
    (hfresh : ∀ r ∈ st.table, r.task_name ≠ name) :
    create_task (some name) jsonStatus st
      = (.ok ⟨st.nextId, name, jsonStatus.getD false⟩,
         ⟨st.table ++ [⟨st.nextId, name, jsonStatus.getD false⟩], st.nextId + 1⟩) := by
  have hfind : st.table.find? (fun r => r.task_name == name) = none :=
    List.find?_eq_none.mpr (fun x hx => by simpa using hfresh x hx)
  simp [create_task, parseTask, create_taskF, hfind, h1, h2]

/-- C1 (code evaluated at the failing input): an Update request that supplies only
status = true does NOT succeed, contrary to the claim: the pydantic Task model
declares name as a required field, so the body is rejected with a validation
error before the handler runs, and the task named "Buy milk" keeps status false.
The handler branches for updating only the supplied fields exist but are
unreachable. -/
theorem c1_status_only_update_rejected :
    update_task 1 none (some true) ⟨[⟨1, "Buy milk", false⟩], 2⟩
      = (.error (.validation "Field required: name"),
         ⟨[⟨1, "Buy milk", false⟩], 2⟩) := rfl

/-- C2 (counterexample): with the store holding the single task
(1, "Buy milk", false), the list request the client builds for name filter "mil"
returns no task at all, although the claim requires the case-insensitive
substring match to return the "Buy milk" task. -/
theorem c2_counterexample :
    frontend_get_tasks "mil" none ⟨[⟨1, "Buy milk", false⟩], 2⟩ = [] := rfl

/-- C2 (amended): for a nonempty filter f the client sends name = "%f%" and the
backend compares task_name against it with equality (not LIKE), so
List(nameFilter = f) returns exactly the tasks whose name is the literal string
"%f%", in table order; no substring or case-insensitive matching happens, and in
particular "mil" does not match "Buy milk". -/
theorem c2_amended (f : String) (st : Db) (hf : f ≠ "") :
    frontend_get_tasks f none st
      = (st.table.filter (fun r => r.task_name == "%" ++ f ++ "%")).map
          rowToResponse := by
  simp [frontend_get_tasks, frontend_params, dispatch_get_tasks, getTasksRegistration,
    runGetTasksHandler, get_all_tasks, hf]

/-- C2 (witness): the amended statement evaluated at filter "mil" over a store
holding only the task "Buy milk". -/
theorem c2_amended_witness :
    "mil" ≠ "" ∧
    frontend_get_tasks "mil" none ⟨[⟨1, "Buy milk", false⟩], 2⟩
      = (([⟨1, "Buy milk", false⟩] : List TaskRow).filter
          (fun r => r.task_name == "%" ++ "mil" ++ "%")).map rowToResponse :=
  ⟨by decide, c2_amended "mil" ⟨[⟨1, "Buy milk", false⟩], 2⟩ (by decide)⟩

/-- C3 (counterexample): starting from the empty store, Create "a" then Create
"b" yields rows with ids 1 and 2, and List() with no filters returns them
ascending by id — table order, there being no ORDER BY — not most-recently-created
first as the claim requires. -/
theorem c3_counterexample :
    get_all_tasks none none
        (create_task (some "b") none (create_task (some "a") none ⟨[], 1⟩).2).2
      = [⟨1, "a", false⟩, ⟨2, "b", false⟩] ∧
    get_all_tasks none none
        (create_task (some "b") none (create_task (some "a") none ⟨[], 1⟩).2).2
      ≠ [⟨2, "b", false⟩, ⟨1, "a", false⟩] :=
  ⟨rfl, by decide⟩

/-- C3 (amended): List returns the matching tasks in table (insertion) order for
every filter combination; since ids are assigned by an increasing counter, a
table with strictly increasing ids yields responses ascending by id (oldest
first), and List() with no filters returns the whole table in that same order. -/
theorem c3_amended (name : Option String) (status : Option Bool) (st : Db)
    (hsorted : st.table.Pairwise (fun a b => a.id < b.id)) :
    (get_all_tasks name status st).Pairwise (fun a b => a.id < b.id) ∧
    get_all_tasks none none st = st.table.map rowToResponse := by
  have hmap : ∀ (l : List TaskRow), l.Pairwise (fun a b => a.id < b.id) →
      (l.map rowToResponse).Pairwise (fun a b => a.id < b.id) :=
    fun l hl => hl.map rowToResponse (fun a b h => h)
  refine ⟨?_, rfl⟩
  cases name <;> cases status <;>
    first
      | exact hmap _ hsorted
      | exact hmap _ (hsorted.filter _)

/-- C3 (witness): the amended statement evaluated on a two-row store with ids
1 and 2, with and without a status filter. -/
theorem c3_amended_witness :
    (([⟨1, "a", false⟩, ⟨2, "b", true⟩] : List TaskRow).Pairwise
        (fun a b => a.id < b.id)) ∧
    (get_all_tasks none (some true) ⟨[⟨1, "a", false⟩, ⟨2, "b", true⟩], 3⟩).Pairwise
        (fun a b => a.id < b.id) ∧
    get_all_tasks none none ⟨[⟨1, "a", false⟩, ⟨2, "b", true⟩], 3⟩
      = ([⟨1, "a", false⟩, ⟨2, "b", true⟩] : List TaskRow).map rowToResponse :=
  ⟨by decide,
   (c3_amended none (some true) ⟨[⟨1, "a", false⟩, ⟨2, "b", true⟩], 3⟩ (by decide)).1,
   (c3_amended none none ⟨[⟨1, "a", false⟩, ⟨2, "b", true⟩], 3⟩ (by decide)).2⟩

/-- C4: for every name of length 1..100 carried by no stored row, Create succeeds
and appends exactly one new row; if some stored row already carries the name,
Create fails with the duplicate-name error and the store is unchanged. -/
theorem c4_create_unique (name : String) (jsonStatus : Option Bool) (st : Db)
    (hlen : 1 ≤ name.length ∧ name.length ≤ 100) :
    ((∀ r ∈ st.table, r.task_name ≠ name) →
      create_task (some name) jsonStatus st
        = (.ok ⟨st.nextId, name, jsonStatus.getD false⟩,
           ⟨st.table ++ [⟨st.nextId, name, jsonStatus.getD false⟩], st.nextId + 1⟩)) ∧
    ((∃ r ∈ st.table, r.task_name = name) →
      create_task (some name) jsonStatus st
        = (.error (.duplicate "Task name already exists"), st)) := by
  constructor
  · exact fun hfresh => create_task_fresh name jsonStatus st hlen.1 hlen.2 hfresh
  · rintro ⟨r, hr, hname⟩
    cases hfind : st.table.find? (fun x => x.task_name == name) with
    | none =>
        exact absurd hname (by simpa using List.find?_eq_none.mp hfind r hr)
    | some r0 =>
        simp [create_task, parseTask, create_taskF, hfind, hlen.1, hlen.2]

/-- C4 (witness): Create "a" on the empty store succeeds and inserts the row. -/
theorem c4_witness :
    (1 ≤ "a".length ∧ "a".length ≤ 100) ∧
    create_task (some "a") none ⟨[], 1⟩
      = (.ok ⟨1, "a", false⟩, ⟨[⟨1, "a", false⟩], 2⟩) :=
  ⟨by decide, (c4_create_unique "a" none ⟨[], 1⟩ (by decide)).1 (by simp)⟩

/-- C5: if the store holds a row with id N, Delete(N) returns that row as it was
immediately before deletion and removes it; afterwards Get(N) fails with the
not-found error, and a second Delete(N) also fails with the not-found error. -/
theorem c5_delete (N : Nat) (st : Db) (row : TaskRow)
    (hfind : st.table.find? (fun r => r.id == N) = some row) :
    delete_task N st
      = (.ok ⟨N, row.task_name, row.status⟩,
         ⟨st.table.filter (fun r => !(r.id == N)), st.nextId⟩) ∧
    get_task N (delete_task N st).2
      = .error (.notFound "Specific Task ID not found") ∧
    (delete_task N (delete_task N st).2).1
      = .error (.notFound "Specific Task ID not found") := by
  have h1 : delete_task N st
      = (.ok ⟨N, row.task_name, row.status⟩,
         ⟨st.table.filter (fun r => !(r.id == N)), st.nextId⟩) := by
    simp [delete_task, delete_taskF, hfind]
  have hnone : (st.table.filter (fun r => !(r.id == N))).find?
      (fun r => r.id == N) = none := by
    refine List.find?_eq_none.mpr (fun x hx => ?_)
    have h2 := (List.mem_filter.mp hx).2
    simp only [Bool.not_eq_true'] at h2
    simp [h2]
  refine ⟨h1, ?_, ?_⟩
  · rw [h1]
    simp [get_task, hnone]
  · rw [h1]
    simp [delete_task, delete_taskF, hnone]

/-- C5 (witness): deleting task 1 from a one-row store returns the row, after
which Get and a second Delete both answer not-found. -/
theorem c5_witness :
    delete_task 1 ⟨[⟨1, "a", false⟩], 2⟩
      = (.ok ⟨1, "a", false⟩,
         ⟨([⟨1, "a", false⟩] : List TaskRow).filter (fun r => !(r.id == 1)), 2⟩) ∧
    get_task 1 (delete_task 1 ⟨[⟨1, "a", false⟩], 2⟩).2
      = .error (.notFound "Specific Task ID not found") ∧
    (delete_task 1 (delete_task 1 ⟨[⟨1, "a", false⟩], 2⟩).2).1
      = .error (.notFound "Specific Task ID not found") :=
  c5_delete 1 ⟨[⟨1, "a", false⟩], 2⟩ ⟨1, "a", false⟩ (by decide)

/-- C6: an update request for a stored id that supplies neither name nor status
is rejected with a validation error — pydantic already rejects the body, name
being a required field of Task — and the store, row N included, is unchanged. -/
theorem c6_empty_update (N : Nat) (st : Db)
    (_hmem : (st.table.find? (fun r => r.id == N)).isSome = true) :
    update_task N none none st
      = (.error (.validation "Field required: name"), st) := rfl

/-- C6 (witness): the empty update evaluated on a one-row store at its id. -/
theorem c6_witness :
    (((⟨[⟨1, "a", false⟩], 2⟩ : Db).table.find? (fun r => r.id == 1)).isSome = true) ∧
    update_task 1 none none ⟨[⟨1, "a", false⟩], 2⟩
      = (.error (.validation "Field required: name"), ⟨[⟨1, "a", false⟩], 2⟩) :=
  ⟨by decide, c6_empty_update 1 ⟨[⟨1, "a", false⟩], 2⟩ (by decide)⟩

/-- C7: the create/get round trip: if the name is valid and fresh and the
auto-increment counter exceeds every stored id, Create(name, status) answers with
id equal to the counter value, and Get of that id in the post-state returns
exactly the created record. -/
theorem c7_create_get_roundtrip (name : String) (status : Bool) (st : Db)
    (hlen : 1 ≤ name.length ∧ name.length ≤ 100)
    (hfresh : ∀ r ∈ st.table, r.task_name ≠ name)
    (hid : ∀ r ∈ st.table, r.id < st.nextId) :
    (create_task (some name) (some status) st).1 = .ok ⟨st.nextId, name, status⟩ ∧
    get_task st.nextId (create_task (some name) (some status) st).2
      = .ok ⟨st.nextId, name, status⟩ := by
  rw [create_task_fresh name (some status) st hlen.1 hlen.2 hfresh]
  refine ⟨rfl, ?_⟩
  have hnone : st.table.find? (fun r => r.id == st.nextId) = none :=
    List.find?_eq_none.mpr (fun x hx => by simpa using Nat.ne_of_lt (hid x hx))
  simp [get_task, List.find?_append, hnone, rowToResponse]

/-- C7 (witness): Create "Buy milk" with status false on the empty store returns
id 1 and Get(1) reproduces the created record. -/
theorem c7_witness :
    (create_task (some "Buy milk") (some false) ⟨[], 1⟩).1
      = .ok ⟨1, "Buy milk", false⟩ ∧
    get_task 1 (create_task (some "Buy milk") (some false) ⟨[], 1⟩).2
      = .ok ⟨1, "Buy milk", false⟩ :=
  c7_create_get_roundtrip "Buy milk" false ⟨[], 1⟩ (by decide) (by simp) (by simp)

/-- C8: whatever database call of Create, Update or Delete a storage-level
failure is injected at, the operation answers with the storage error and the
resulting store equals the store before the call: nothing partial is committed,
matching the rollback the source performs in every mysql error branch. -/
theorem c8_rollback (t : Task) (tid : Nat) (nm : Option String) (stat : Option Bool)
    (k : Option Nat) (st : Db) :
    (∀ m, (create_taskF t k st).1 = .error (.storage m) →
      (create_taskF t k st).2 = st) ∧
    (∀ m, (update_taskF tid nm stat k st).1 = .error (.storage m) →
      (update_taskF tid nm stat k st).2 = st) ∧
    (∀ m, (delete_taskF tid k st).1 = .error (.storage m) →
      (delete_taskF tid k st).2 = st) := by
  refine ⟨?_, ?_, ?_⟩ <;> intro m h
  · by_cases h0 : k = some 0
    · simp [create_taskF, h0]
    · cases hf : st.table.find? (fun r => r.task_name == t.name) with
      | some r => simp [create_taskF, h0, hf]
      | none =>
          by_cases h12 : k = some 1 ∨ k = some 2
          · simp [create_taskF, h0, hf, h12]
          · exfalso
            simp [create_taskF, h0, hf, h12] at h
  · by_cases h0 : k = some 0
    · simp [update_taskF, h0]
    · cases hf : st.table.find? (fun r => r.id == tid) with
      | none => simp [update_taskF, h0, hf]
      | some r =>
          by_cases h12 : k = some 1 ∨ k = some 2
          · cases nm <;> cases stat <;> simp [update_taskF, h0, hf, h12]
          · exfalso
            cases nm <;> cases stat <;>
              simp [update_taskF, mkTaskResponse, h0, hf, h12] at h
  · by_cases h0 : k = some 0
    · simp [delete_taskF, h0]
    · cases hf : st.table.find? (fun r => r.id == tid) with
      | none => simp [delete_taskF, h0, hf]
      | some r =>
          by_cases h1 : k = some 1
          · simp [delete_taskF, h0, hf, h1]
          · by_cases h23 : k = some 2 ∨ k = some 3
            · simp [delete_taskF, h0, hf, h1, h23]
            · exfalso
              simp [delete_taskF, h0, hf, h1, h23] at h

/-- C8 (witness): rollback evaluated with a failure injected into the
duplicate-check SELECT of Create, the UPDATE statement of Update and the DELETE
statement of Delete: each run errors and the store is exactly the input store. -/
theorem c8_witness :
    (create_taskF ⟨"a", false⟩ (some 0) ⟨[], 1⟩).1
      = .error (.storage "mid-operation failure") ∧
    (create_taskF ⟨"a", false⟩ (some 0) ⟨[], 1⟩).2 = ⟨[], 1⟩ ∧
    (update_taskF 1 (some "b") (some true) (some 1) ⟨[⟨1, "a", false⟩], 2⟩).2
      = ⟨[⟨1, "a", false⟩], 2⟩ ∧
    (delete_taskF 1 (some 2) ⟨[⟨1, "a", false⟩], 2⟩).2 = ⟨[⟨1, "a", false⟩], 2⟩ :=
  ⟨rfl,
   (c8_rollback ⟨"a", false⟩ 1 (some "b") (some true) (some 0) ⟨[], 1⟩).1
     "mid-operation failure" rfl,
   (c8_rollback ⟨"a", false⟩ 1 (some "b") (some true) (some 1)
     ⟨[⟨1, "a", false⟩], 2⟩).2.1 "mid-operation failure" rfl,
   (c8_rollback ⟨"a", false⟩ 1 (some "b") (some true) (some 2)
     ⟨[⟨1, "a", false⟩], 2⟩).2.2 "mid-operation failure" rfl⟩

/-- C9: the re-fetch of refresh_tasks with an empty name filter: both toggles on
or both off apply no status filter and return every task; show-completed alone
returns exactly the completed tasks; show-pending alone exactly the pending
ones. -/
theorem c9_toggle_filters (st : Db) :
    refresh_tasks "" true true st = st.table.map rowToResponse ∧
    refresh_tasks "" false false st = st.table.map rowToResponse ∧
    refresh_tasks "" true false st
      = (st.table.filter (fun r => r.status == true)).map rowToResponse ∧
    refresh_tasks "" false true st
      = (st.table.filter (fun r => r.status == false)).map rowToResponse := by
  refine ⟨?_, ?_, ?_, ?_⟩ <;>
    simp [refresh_tasks, refreshStatusFilter, frontend_get_tasks, frontend_params,
      dispatch_get_tasks, getTasksRegistration, runGetTasksHandler, get_all_tasks]

/-- C10: every GET /tasks request is dispatched to the first-registered handler
get_all_tasks; the later get_tasks registration is never selected, and the search
query parameter has no effect on the response. -/
theorem c10_first_route_wins (nm : Option String) (stq : Option Bool)
    (se se2 : Option String) (st : Db) :
    getTasksRegistration.head? = some GetTasksHandler.allTasks ∧
    dispatch_get_tasks ⟨nm, stq, se⟩ st = get_all_tasks nm stq st ∧
    dispatch_get_tasks ⟨nm, stq, se⟩ st = dispatch_get_tasks ⟨nm, stq, se2⟩ st :=
  ⟨rfl, rfl, rfl⟩

end ToDoApp
